import Mathlib

/-!
Shallow embedding of `src/logs_analyzer_dashboard.py` (the device-downtime
analyzer).  Timestamps are modelled as integer seconds; pandas `NaN`/`NaT`
cells are modelled as `Option`; the tz-aware/naive distinction of pandas
timestamps is modelled by `Tz`, since the source mixes the two kinds and
pandas raises `TypeError` on an aware-minus-naive subtraction.
-/

namespace LogsAnalyzer

/-- Event status produced by the normalizer (`main`, lines 440-442). -/
inductive Status where
  | online
  | offline
  | unknown
deriving DecidableEq, Repr

/-- Downtime-interval classification (`process_data`, lines 132-136). -/
inductive DStatus where
  | Completed
  | Ongoing
  | Intermediate
deriving DecidableEq, Repr

/-- A canonical event row: `Device Name`, `Record Time` (naive seconds), `status`. -/
structure Event where
  device : String
  time : ℤ
  status : Status
deriving DecidableEq, Repr

/-- A raw CSV row before normalization: parsed `Record Time`, `Device Name`, `Type`. -/
structure RawRow where
  time : ℤ
  device : String
  ty : String
deriving DecidableEq, Repr

/-- Pandas timezone kind: `Record Time` values are naive, the clock samples
`pd.Timestamp.now(tz='Africa/Accra')` are aware. -/
inductive Tz where
  | naive
  | accra
deriving DecidableEq, Repr

/-- A pandas timestamp: a value in seconds together with its timezone kind. -/
structure TS where
  val : ℤ
  tz : Tz
deriving DecidableEq, Repr

/-- `Timestamp.tz_localize(None)`: drop the timezone, keep the local value. -/
def tzLocalizeNone (t : TS) : TS := ⟨t.val, Tz.naive⟩

/-- Subtraction of pandas timestamps: defined only when the two operands have
the same timezone kind; pandas raises `TypeError: Cannot subtract tz-naive and
tz-aware datetime-like objects` otherwise. -/
def tsSub (a b : TS) : Except Unit ℤ :=
  if a.tz = b.tz then Except.ok (a.val - b.val) else Except.error ()

/-- Checks whether the pattern list occurs at the head of the second list. -/
def startsAt : List Char → List Char → Bool
  | [], _ => true
  | _ :: _, [] => false
  | p :: ps, c :: cs => p == c && startsAt ps cs

/-- Checks whether the pattern list occurs anywhere inside the second list. -/
def hasSub (p : List Char) : List Char → Bool
  | [] => startsAt p []
  | c :: cs => startsAt p (c :: cs) || hasSub p cs

/-- `Series.str.contains(pat, case=False)`: case-insensitive substring test. -/
def containsCI (pat s : String) : Bool :=
  hasSub (pat.data.map Char.toLower) (s.data.map Char.toLower)

/-- Status inference (`main`, lines 440-442): the status column starts as
`unknown`, rows whose `Type` contains "online" are overwritten with `online`,
then rows whose `Type` contains "offline" are overwritten with `offline`
(the later write wins when both substrings occur). -/
def inferStatus (ty : String) : Status :=
  if containsCI "offline" ty then Status.offline
  else if containsCI "online" ty then Status.online
  else Status.unknown

/-- Turn a kept raw row into a canonical event (`Type` column dropped). -/
def toCanonical (r : RawRow) : Event :=
  ⟨r.device, r.time, inferStatus r.ty⟩

/-- Insert an element into a list sorted by `le`. -/
def insertBy (le : α → α → Bool) (x : α) : List α → List α
  | [] => [x]
  | y :: ys => if le x y then x :: y :: ys else y :: insertBy le x ys

/-- Insertion sort by `le`. -/
def sortBy (le : α → α → Bool) : List α → List α
  | [] => []
  | x :: xs => insertBy le x (sortBy le xs)

/-- Lexicographic strict comparison of character lists by code point, the
order Python uses on strings. -/
def lexLt : List Char → List Char → Bool
  | [], [] => false
  | [], _ :: _ => true
  | _ :: _, [] => false
  | a :: as, b :: bs =>
    if a.toNat < b.toNat then true
    else if b.toNat < a.toNat then false
    else lexLt as bs

/-- Strict string comparison by code points. -/
def strLt (a b : String) : Bool := lexLt a.data b.data

/-- Non-strict string comparison by code points. -/
def strLe (a b : String) : Bool := !(strLt b a)

/-- Comparison used by `df.sort_values(by=['Device Name', 'Record Time'])`. -/
def eventLe (a b : Event) : Bool :=
  strLt a.device b.device || (a.device == b.device && decide (a.time ≤ b.time))

/-- The normalizer (`main`, lines 437-445): keep rows whose `Type` contains
"encoding" (case-insensitive), infer the status column, drop `Type`, and sort
by device then record time.  Rows with status `unknown` are NOT removed. -/
def preprocess (raw : List RawRow) : List Event :=
  sortBy eventLe ((raw.filter fun r => containsCI "encoding" r.ty).map toCanonical)

/-- An event together with its per-device neighbors, as produced by
`groupby('Device Name')[...].shift(-1)` / `.shift(1)` (lines 120-124):
`nextEv` is the next row of the same device in dataframe order, `prevEv`
the previous one. -/
structure AnnEvent where
  ev : Event
  prevEv : Option Event
  nextEv : Option Event
deriving DecidableEq, Repr

/-- Walk the dataframe computing per-device neighbors; `seen` holds the rows
already passed, most recent first. -/
def annotate : List Event → List Event → List AnnEvent
  | _, [] => []
  | seen, e :: rest =>
    { ev := e,
      prevEv := seen.find? fun p => p.device == e.device,
      nextEv := rest.find? fun n => n.device == e.device } :: annotate (e :: seen) rest

/-- Initial classification (lines 132-136): `Completed` when the next status is
online, else `Ongoing` when the previous status is online, else `Intermediate`.
A missing neighbor compares unequal to `'online'` (NaN == 'online' is False). -/
def classifyInit (nextStatus prevStatus : Option Status) : DStatus :=
  if nextStatus = some Status.online then DStatus.Completed
  else if prevStatus = some Status.online then DStatus.Ongoing
  else DStatus.Intermediate

/-- An interval candidate row of `df_downtime` (lines 118-140):
`onlineTime` is the renamed `next_time` column, hence the next event's time
whatever its status; `downtimeSeconds` is NaN unless the next status is online. -/
structure Interval where
  device : String
  offlineTime : ℤ
  onlineTime : Option ℤ
  downtimeSeconds : Option ℤ
  dstatus : DStatus
deriving DecidableEq, Repr

/-- Build the candidate interval row for one offline event (lines 126-139). -/
def mkInterval (a : AnnEvent) : Interval :=
  { device := a.ev.device
    offlineTime := a.ev.time
    onlineTime := a.nextEv.map (·.time)
    downtimeSeconds :=
      match a.nextEv with
      | some n => if n.status = Status.online then some (n.time - a.ev.time) else none
      | none => none
    dstatus := classifyInit (a.nextEv.map (·.status)) (a.prevEv.map (·.status)) }

/-- "Fix misclassified records" (lines 145-147): a row with a non-null
`Online_Time` AND status `Ongoing` is coerced to `Completed`. -/
def fixMisclassified (i : Interval) : Interval :=
  if i.onlineTime.isSome ∧ i.dstatus = DStatus.Ongoing
  then { i with dstatus := DStatus.Completed } else i

/-- `recalculate_downtime` (lines 150-166): `Completed` keeps its precomputed
seconds (0 when NaN); otherwise a non-null `Online_Time` gives
`Online_Time - Offline_Time`; otherwise the duration runs to the current
time, with the aware clock sample stripped via `tz_localize(None)`. -/
def recalcDowntime (currentTime : TS) (i : Interval) : ℤ :=
  if i.dstatus = DStatus.Completed then i.downtimeSeconds.getD 0
  else
    match i.onlineTime with
    | some t => t - i.offlineTime
    | none => (tzLocalizeNone currentTime).val - i.offlineTime

/-- Zero-pad as `f"{n:02d}"`. -/
def pad2 (n : ℤ) : String :=
  if 0 ≤ n ∧ n < 10 then "0" ++ toString n else toString n

/-- `format_duration` (lines 62-74); Python `//` and `%` are floor division
and modulus, hence `Int.fdiv` / `Int.fmod`.  The NaN branch returning `""`
cannot arise here since recalculated durations are always numeric. -/
def formatDuration (seconds : ℤ) : String :=
  let days := seconds.fdiv 86400
  let hours := (seconds.fmod 86400).fdiv 3600
  let minutes := (seconds.fmod 3600).fdiv 60
  let secs := seconds.fmod 60
  if 0 < days then
    toString days ++ "d " ++ pad2 hours ++ ":" ++ pad2 minutes ++ ":" ++ pad2 secs
  else
    pad2 hours ++ ":" ++ pad2 minutes ++ ":" ++ pad2 secs

/-- A finalized `df_downtime` row after lines 168-170: recalculated seconds
plus the formatted duration column. -/
structure FinInterval where
  device : String
  offlineTime : ℤ
  onlineTime : Option ℤ
  downtimeSeconds : ℤ
  downtimeDuration : String
  dstatus : DStatus
deriving DecidableEq, Repr

/-- Apply the recalculation and add the duration column to one row. -/
def finalize (currentTime : TS) (i : Interval) : FinInterval :=
  let d := recalcDowntime currentTime i
  { device := i.device, offlineTime := i.offlineTime, onlineTime := i.onlineTime,
    downtimeSeconds := d, downtimeDuration := formatDuration d, dstatus := i.dstatus }

/-- Full per-row processing of one offline candidate (lines 126-170). -/
def buildRow (currentTime : TS) (a : AnnEvent) : FinInterval :=
  finalize currentTime (fixMisclassified (mkInterval a))

/-- The offline candidate rows: `.loc[lambda x: x['status'] == 'offline']`
applied to the neighbor-annotated dataframe (lines 118-125). -/
def offlineCandidates (l : List Event) : List AnnEvent :=
  (annotate [] l).filter fun a => a.ev.status == Status.offline

/-- The finalized `df_downtime` table for a given event dataframe. -/
def downtimeTable (currentTime : TS) (l : List Event) : List FinInterval :=
  (offlineCandidates l).map (buildRow currentTime)

/-- The initial candidate intervals before the reclassification pass
(lines 118-140). -/
def initIntervals (l : List Event) : List Interval :=
  (offlineCandidates l).map mkInterval

/-- `calculate_uptime_percentage` (lines 89-94). -/
def calculateUptimePercentage (downtimeSeconds totalSeconds : ℚ) : ℚ :=
  if totalSeconds = 0 then 100
  else (totalSeconds - downtimeSeconds) / totalSeconds * 100

/-- Round an exact rational to the nearest integer, ties to even, matching
numpy/pandas `round`. -/
def roundHalfEven (x : ℚ) : ℤ :=
  let f : ℤ := ⌊x⌋
  let r : ℚ := x - (f : ℚ)
  if r < 1 / 2 then f
  else if 1 / 2 < r then f + 1
  else if f % 2 = 0 then f else f + 1

/-- Pandas `.round(2)`. -/
def round2 (x : ℚ) : ℚ := ((roundHalfEven (x * 100) : ℚ)) / 100

/-- Groupby aggregation `'last'` on a column with NaN: the last non-null value. -/
def lastSome (l : List (Option ℤ)) : Option ℤ :=
  l.foldl (fun acc x => match x with | some v => some v | none => acc) none

/-- A row of the per-device summary table (lines 175-214).  The columns
`Uptime_Percentage` and `MTBF_Hours` (lines 216-228) are initialized to 0 by
the aggregation model and only filled by `setMetrics`. -/
structure SummaryRow where
  device : String
  totalEvents : ℕ
  firstOffline : ℤ
  lastOffline : ℤ
  lastOnline : Option ℤ
  totalDowntimeSeconds : ℤ
  ongoingCount : ℕ
  currentDowntimeSeconds : ℤ
  currentDowntimeDuration : String
  totalDowntimeDuration : String
  currentStatus : String
  uptimePercentage : ℚ
  mtbfHours : ℚ
deriving DecidableEq, Repr

/-- Aggregate the `df_downtime` rows of one device (lines 175-214): counts,
first/last offline, last online, summed downtime, ongoing count, then the
current-downtime and status columns.  The sums of integer seconds make the
`round(0)` of lines 192 and 211 the identity. -/
def aggRow (analysisTime : TS) (rows : List FinInterval) (d : String) : SummaryRow :=
  let g := rows.filter fun i => i.device == d
  let ongoing := (g.filter fun i => i.dstatus == DStatus.Ongoing).length
  let lastOff := (g.map (·.offlineTime)).getLastD 0
  let total := (g.map (·.downtimeSeconds)).sum
  let current := if 0 < ongoing then (tzLocalizeNone analysisTime).val - lastOff else 0
  { device := d
    totalEvents := g.length
    firstOffline := (g.map (·.offlineTime)).headD 0
    lastOffline := lastOff
    lastOnline := lastSome (g.map (·.onlineTime))
    totalDowntimeSeconds := total
    ongoingCount := ongoing
    currentDowntimeSeconds := current
    currentDowntimeDuration := formatDuration current
    totalDowntimeDuration := formatDuration total
    currentStatus := if 0 < ongoing then "🔴 Offline" else "✔️ Online"
    uptimePercentage := 0
    mtbfHours := 0 }

/-- The summary table through line 214: `groupby('Device')` visits the
distinct devices in sorted order. -/
def buildSummaryCore (analysisTime : TS) (rows : List FinInterval) : List SummaryRow :=
  let devices := sortBy strLe (rows.map (·.device)).eraseDups
  devices.map (aggRow analysisTime rows)

/-- `summary['First_Offline'].min()` (line 217), a tz-naive timestamp. -/
def minFirstOffline (summary : List SummaryRow) : ℤ :=
  ((summary.map (·.firstOffline)).min?).getD 0

/-- The derived-metric columns of lines 218-228, only computed when the
total-period subtraction of line 217 succeeds. -/
def setMetrics (totalPeriodSeconds : ℚ) (r : SummaryRow) : SummaryRow :=
  { r with
    uptimePercentage :=
      round2 (calculateUptimePercentage (r.totalDowntimeSeconds : ℚ) totalPeriodSeconds)
    mtbfHours :=
      if 1 < r.totalEvents then
        round2 ((totalPeriodSeconds - (r.totalDowntimeSeconds : ℚ)) /
          ((r.totalEvents : ℚ) - 1) / 3600)
      else 0 }

/-- A row of the interval table handed back to the caller (line 235). -/
structure DisplayRow where
  device : String
  offlineTime : ℤ
  onlineTime : Option ℤ
  downtimeDuration : String
  downtimeStatus : String
deriving DecidableEq, Repr

/-- Status formatting of lines 231-233: `'Ongoing'` becomes `'🔴 Ongoing'`,
everything else — `Completed` and `Intermediate` alike — becomes
`'✔️ Completed'`. -/
def displayStatus (s : DStatus) : String :=
  if s = DStatus.Ongoing then "🔴 Ongoing" else "✔️ Completed"

/-- Column selection of line 235 plus the status formatting. -/
def toDisplay (i : FinInterval) : DisplayRow :=
  ⟨i.device, i.offlineTime, i.onlineTime, i.downtimeDuration, displayStatus i.dstatus⟩

/-- Date-range filter (lines 103-106): both bounds inclusive, with the end
bound extended by one day (86400 s). -/
def dateFiltered (startDate endDate : Option ℤ) (l : List Event) : List Event :=
  match startDate, endDate with
  | some sd, some ed =>
    l.filter fun ev => decide (sd ≤ ev.time) && decide (ev.time ≤ ed + 86400)
  | _, _ => l

/-- Device allow-list filter (lines 109-110): an empty list means no filtering. -/
def deviceFiltered (sel : List String) (l : List Event) : List Event :=
  if sel.isEmpty then l else l.filter fun ev => sel.contains ev.device

/-- The dataframe reaching the downtime computation (lines 103-110). -/
def filteredEvents (startDate endDate : Option ℤ) (sel : List String)
    (l : List Event) : List Event :=
  deviceFiltered sel (dateFiltered startDate endDate l)

/-- `process_data` (lines 97-241).  The four integer arguments after the
allow-list are the four wall-clock samples the function can take, in program
order: `get_ghana_time()` at line 113, `pd.Timestamp.now(tz='Africa/Accra')`
at lines 116 and 173, and `get_ghana_time()` inside the `except` handler at
line 241.  On any input with at least one offline candidate, line 217
subtracts the tz-naive `First_Offline` minimum from the tz-aware analysis
time; `tsSub` signals the `TypeError` pandas raises there, and the handler
returns two empty frames plus a fresh Ghana-time sample. -/
def processData (events : List Event) (startDate endDate : Option ℤ)
    (selectedDevices : List String)
    (ghanaTime currentTime analysisTime ghanaTimeExc : ℤ) :
    List SummaryRow × List DisplayRow × ℤ :=
  let df := filteredEvents startDate endDate selectedDevices events
  if df.isEmpty then ([], [], ghanaTime)
  else
    let cand := offlineCandidates df
    if cand.isEmpty then ([], [], currentTime)
    else
      let dt := cand.map (buildRow ⟨currentTime, Tz.accra⟩)
      let summary := buildSummaryCore ⟨analysisTime, Tz.accra⟩ dt
      match tsSub ⟨analysisTime, Tz.accra⟩ ⟨minFirstOffline summary, Tz.naive⟩ with
      | Except.error _ => ([], [], ghanaTimeExc)
      | Except.ok totalPeriodSeconds =>
        (summary.map (setMetrics (totalPeriodSeconds : ℚ)),
         dt.map toDisplay, analysisTime)

/-! ## Helper lemmas -/

/-- The annotated dataframe carries exactly the input rows, in order. -/
theorem annotate_map_ev (seen l : List Event) : (annotate seen l).map (·.ev) = l := by
  induction l generalizing seen with
  | nil => rfl
  | cons e rest ih => simp [annotate, ih]

/-- Every annotated row's event belongs to the input dataframe. -/
theorem mem_annotate_ev {seen l : List Event} {a : AnnEvent} (h : a ∈ annotate seen l) :
    a.ev ∈ l := by
  have := List.mem_map_of_mem (·.ev) h
  rwa [annotate_map_ev] at this

/-- Filtering the annotated rows by a predicate on the underlying event and
projecting through the event agrees with doing both on the raw dataframe. -/
theorem annotate_filter_map {γ : Type} (q : Event → Bool) (g : Event → γ) :
    ∀ (seen l : List Event),
      (((annotate seen l).filter fun a => q a.ev).map fun a => g a.ev) =
        (l.filter q).map g := by
  intro seen l
  induction l generalizing seen with
  | nil => rfl
  | cons e rest ih =>
    by_cases hq : q e
    · simp [annotate, List.filter_cons, hq, ih]
    · simp [annotate, List.filter_cons, hq, ih]

/-- With per-device sorted input, a row's next same-device event is not
earlier than the row itself. -/
theorem nextEv_time_le :
    ∀ (seen l : List Event),
      (∀ d : String,
        ((l.filter fun e => e.device == d).map (·.time)).Pairwise (· ≤ ·)) →
      ∀ a ∈ annotate seen l, ∀ n, a.nextEv = some n → a.ev.time ≤ n.time := by
  intro seen l
  induction l generalizing seen with
  | nil => intro _ a ha; cases ha
  | cons e rest ih =>
    intro hsort a ha n hn
    have hsort' : ∀ d : String,
        ((rest.filter fun x => x.device == d).map (·.time)).Pairwise (· ≤ ·) := by
      intro d
      have := hsort d
      rw [List.filter_cons] at this
      by_cases hd : (e.device == d) = true
      · rw [if_pos hd] at this
        simp only [List.map_cons] at this
        exact this.tail
      · rwa [if_neg hd] at this
    simp only [annotate, List.mem_cons] at ha
    rcases ha with rfl | hmem
    · dsimp only at hn
      have hpred0 := List.find?_some hn
      have hpred : (n.device == e.device) = true := hpred0
      have hnmem : n ∈ rest := List.mem_of_find?_eq_some hn
      have hpw := hsort e.device
      rw [List.filter_cons, if_pos (by simp)] at hpw
      simp only [List.map_cons] at hpw
      exact List.rel_of_pairwise_cons hpw
        (List.mem_map_of_mem (·.time) (List.mem_filter.mpr ⟨hnmem, hpred⟩))
    · exact ih (e :: seen) hsort' a hmem n hn

/-- A bounded per-device sortedness hypothesis extends to every device name:
devices not present filter to the empty list. -/
theorem perDevSorted_all (l : List Event)
    (h : ∀ d ∈ l.map (·.device),
      ((l.filter fun e => e.device == d).map (·.time)).Pairwise (· ≤ ·)) :
    ∀ d : String,
      ((l.filter fun e => e.device == d).map (·.time)).Pairwise (· ≤ ·) := by
  intro d
  by_cases hd : d ∈ l.map (·.device)
  · exact h d hd
  · have hnil : l.filter (fun e => e.device == d) = [] := by
      rw [List.filter_eq_nil_iff]
      intro a hal hadev
      have hdev : a.device = d := by simpa using hadev
      have hmem : a.device ∈ l.map (·.device) := List.mem_map_of_mem (·.device) hal
      rw [hdev] at hmem
      exact hd hmem
    rw [hnil]
    simp

/-- Per-device sortedness restricts along sublists of the event list. -/
theorem perDevSorted_sublist {l₁ l₂ : List Event} (hsub : List.Sublist l₁ l₂)
    (h : ∀ d : String,
      ((l₂.filter fun e => e.device == d).map (·.time)).Pairwise (· ≤ ·)) :
    ∀ d : String,
      ((l₁.filter fun e => e.device == d).map (·.time)).Pairwise (· ≤ ·) := by
  intro d
  exact (h d).sublist ((hsub.filter _).map _)

/-- The filtered dataframe is a sublist of the input events. -/
theorem filteredEvents_sublist (s e : Option ℤ) (sel : List String) (l : List Event) :
    List.Sublist (filteredEvents s e sel l) l := by
  have h1 : List.Sublist (dateFiltered s e l) l := by
    unfold dateFiltered
    cases s with
    | none => cases e <;> exact List.Sublist.refl l
    | some sd => cases e with
      | none => exact List.Sublist.refl l
      | some ed => exact List.filter_sublist l
  have h2 : List.Sublist (filteredEvents s e sel l) (dateFiltered s e l) := by
    unfold filteredEvents deviceFiltered
    split
    · exact List.Sublist.refl _
    · exact List.filter_sublist _
  exact h2.trans h1

/-- Fixing misclassified records changes at most the status field. -/
theorem fixMisclassified_fields (i : Interval) :
    (fixMisclassified i).device = i.device ∧
    (fixMisclassified i).offlineTime = i.offlineTime ∧
    (fixMisclassified i).onlineTime = i.onlineTime ∧
    (fixMisclassified i).downtimeSeconds = i.downtimeSeconds := by
  unfold fixMisclassified
  split <;> exact ⟨rfl, rfl, rfl, rfl⟩

/-- A row still `Ongoing` after the fix was `Ongoing` with no next event time. -/
theorem fixMisclassified_ongoing {i : Interval}
    (h : (fixMisclassified i).dstatus = DStatus.Ongoing) :
    i.dstatus = DStatus.Ongoing ∧ i.onlineTime = none := by
  unfold fixMisclassified at h
  split at h
  · cases h
  · next hcond =>
    refine ⟨h, ?_⟩
    rcases hi : i.onlineTime with _ | t
    · rfl
    · exact absurd ⟨by simp [hi], h⟩ hcond

theorem buildRow_device (ct : TS) (a : AnnEvent) :
    (buildRow ct a).device = a.ev.device :=
  calc (buildRow ct a).device = (fixMisclassified (mkInterval a)).device := rfl
    _ = (mkInterval a).device := (fixMisclassified_fields _).1
    _ = a.ev.device := rfl

theorem buildRow_offlineTime (ct : TS) (a : AnnEvent) :
    (buildRow ct a).offlineTime = a.ev.time :=
  calc (buildRow ct a).offlineTime = (fixMisclassified (mkInterval a)).offlineTime := rfl
    _ = (mkInterval a).offlineTime := (fixMisclassified_fields _).2.1
    _ = a.ev.time := rfl

theorem buildRow_onlineTime (ct : TS) (a : AnnEvent) :
    (buildRow ct a).onlineTime = a.nextEv.map (·.time) :=
  calc (buildRow ct a).onlineTime = (fixMisclassified (mkInterval a)).onlineTime := rfl
    _ = (mkInterval a).onlineTime := (fixMisclassified_fields _).2.2.1
    _ = a.nextEv.map (·.time) := rfl

theorem buildRow_dstatus (ct : TS) (a : AnnEvent) :
    (buildRow ct a).dstatus = (fixMisclassified (mkInterval a)).dstatus := rfl

theorem buildRow_downtimeSeconds (ct : TS) (a : AnnEvent) :
    (buildRow ct a).downtimeSeconds = recalcDowntime ct (fixMisclassified (mkInterval a)) := rfl

/-- An `Ongoing` finalized row has no next event and runs to the current time. -/
theorem buildRow_ongoing {ct : TS} {a : AnnEvent}
    (h : (buildRow ct a).dstatus = DStatus.Ongoing) :
    a.nextEv = none ∧ (buildRow ct a).downtimeSeconds = ct.val - a.ev.time := by
  rw [buildRow_dstatus] at h
  obtain ⟨hstat, honline⟩ := fixMisclassified_ongoing h
  have hnext : a.nextEv = none := by
    have : a.nextEv.map (·.time) = none := honline
    exact Option.map_eq_none'.mp this
  refine ⟨hnext, ?_⟩
  rw [buildRow_downtimeSeconds]
  unfold recalcDowntime
  rw [if_neg (by rw [h]; simp)]
  rw [(fixMisclassified_fields (mkInterval a)).2.2.1,
    (fixMisclassified_fields (mkInterval a)).2.1]
  simp only [mkInterval, hnext, Option.map_none']
  rfl

/-- Durations are nonnegative when the next same-device event is not earlier
and the current time is not before the event. -/
theorem buildRow_nonneg {ct : TS} {a : AnnEvent}
    (h1 : ∀ n, a.nextEv = some n → a.ev.time ≤ n.time)
    (h2 : a.ev.time ≤ ct.val) :
    0 ≤ (buildRow ct a).downtimeSeconds := by
  rw [buildRow_downtimeSeconds]
  unfold recalcDowntime
  rw [(fixMisclassified_fields (mkInterval a)).2.2.1,
    (fixMisclassified_fields (mkInterval a)).2.1,
    (fixMisclassified_fields (mkInterval a)).2.2.2]
  by_cases hc : (fixMisclassified (mkInterval a)).dstatus = DStatus.Completed
  · rw [if_pos hc]
    rcases hn : a.nextEv with _ | n
    · simp [mkInterval, hn]
    · have hle := h1 n hn
      by_cases ho : n.status = Status.online
      · simp only [mkInterval, hn, if_pos ho, Option.getD_some]
        omega
      · simp [mkInterval, hn, if_neg ho]
  · rw [if_neg hc]
    rcases hn : a.nextEv with _ | n
    · simp only [mkInterval, hn, Option.map_none']
      simp only [tzLocalizeNone]
      omega
    · have hle := h1 n hn
      simp only [mkInterval, hn, Option.map_some']
      omega

/-- Members of a list that is pairwise `≤`-sorted are bounded by its last element. -/
theorem le_getLastD :
    ∀ (l : List ℤ), l.Pairwise (· ≤ ·) → ∀ x ∈ l, ∀ d₀ : ℤ, x ≤ l.getLastD d₀ := by
  intro l
  induction l with
  | nil => intro _ x hx; cases hx
  | cons a t ih =>
    intro hpw x hx d₀
    rw [List.getLastD_cons]
    rcases List.mem_cons.mp hx with rfl | hxt
    · cases t with
      | nil => simp [List.getLastD]
      | cons b t' =>
        have hb : x ≤ b := List.rel_of_pairwise_cons hpw (List.mem_cons_self b t')
        exact le_trans hb (ih hpw.tail b (List.mem_cons_self b t') x)
    · exact ih hpw.tail x hxt a

/-- A positive filtered length yields a member satisfying the predicate. -/
theorem exists_mem_of_filter_length_pos {α : Type} {p : α → Bool} {l : List α}
    (h : 0 < (l.filter p).length) : ∃ x, x ∈ l ∧ p x = true := by
  obtain ⟨x, hx⟩ := List.exists_mem_of_ne_nil _ (List.length_pos.mp h)
  exact ⟨x, (List.mem_filter.mp hx).1, (List.mem_filter.mp hx).2⟩

/-- Decompose membership in the downtime table. -/
theorem mem_downtimeTable {ct : TS} {l : List Event} {fi : FinInterval}
    (h : fi ∈ downtimeTable ct l) :
    ∃ a, a ∈ annotate [] l ∧ (a.ev.status == Status.offline) = true ∧
      fi = buildRow ct a := by
  unfold downtimeTable offlineCandidates at h
  obtain ⟨a, ha, rfl⟩ := List.mem_map.mp h
  exact ⟨a, (List.mem_filter.mp ha).1, (List.mem_filter.mp ha).2, rfl⟩

theorem mem_buildSummaryCore {t : TS} {rows : List FinInterval} {row : SummaryRow}
    (h : row ∈ buildSummaryCore t rows) : ∃ d, row = aggRow t rows d := by
  unfold buildSummaryCore at h
  obtain ⟨d, _, rfl⟩ := List.mem_map.mp h
  exact ⟨d, rfl⟩

theorem aggRow_ongoingCount (t : TS) (rows : List FinInterval) (d : String) :
    (aggRow t rows d).ongoingCount =
      ((rows.filter fun i => i.device == d).filter
        fun i => i.dstatus == DStatus.Ongoing).length := rfl

theorem aggRow_total (t : TS) (rows : List FinInterval) (d : String) :
    (aggRow t rows d).totalDowntimeSeconds =
      (((rows.filter fun i => i.device == d).map (·.downtimeSeconds))).sum := rfl

theorem aggRow_current (t : TS) (rows : List FinInterval) (d : String) :
    (aggRow t rows d).currentDowntimeSeconds =
      if 0 < ((rows.filter fun i => i.device == d).filter
          fun i => i.dstatus == DStatus.Ongoing).length
      then (tzLocalizeNone t).val -
        ((rows.filter fun i => i.device == d).map (·.offlineTime)).getLastD 0
      else 0 := rfl

/-- The offline times of one device's downtime rows are the times of that
device's offline events, raw-dataframe order preserved. -/
theorem downtimeTable_filter_offlineTimes (ct : TS) (l : List Event) (d : String) :
    (((downtimeTable ct l).filter fun i => i.device == d).map (·.offlineTime)) =
      (l.filter fun e => (e.device == d) && (e.status == Status.offline)).map
        (·.time) := by
  unfold downtimeTable offlineCandidates
  rw [List.filter_map, List.map_map]
  have hcongr :
      (((annotate [] l).filter fun a => a.ev.status == Status.offline).filter
        ((fun i => i.device == d) ∘ buildRow ct)) =
      (((annotate [] l).filter fun a => a.ev.status == Status.offline).filter
        fun a => a.ev.device == d) :=
    List.filter_congr fun a _ => by
      simp [Function.comp, buildRow_device]
  rw [hcongr, List.filter_filter]
  have hmap :
      (List.map ((fun i => i.offlineTime) ∘ buildRow ct)
        ((annotate [] l).filter
          fun a => (a.ev.device == d) && (a.ev.status == Status.offline))) =
      (List.map (fun a => a.ev.time)
        ((annotate [] l).filter
          fun a => (a.ev.device == d) && (a.ev.status == Status.offline))) :=
    List.map_congr_left fun a _ => by
      simp [Function.comp, buildRow_offlineTime]
  rw [hmap]
  exact annotate_filter_map
    (fun e => (e.device == d) && (e.status == Status.offline)) (·.time) [] l

/-- Intersecting with the offline predicate preserves per-device sortedness. -/
theorem pairwise_offline_times {l : List Event} (d : String)
    (hsort : ((l.filter fun e => e.device == d).map (·.time)).Pairwise (· ≤ ·)) :
    ((l.filter fun e => (e.device == d) && (e.status == Status.offline)).map
      (·.time)).Pairwise (· ≤ ·) := by
  have heq : (l.filter fun e => (e.device == d) && (e.status == Status.offline)) =
      ((l.filter fun e => e.device == d).filter
        fun e => e.status == Status.offline) := by
    rw [List.filter_filter]
    exact List.filter_congr fun x _ => Bool.and_comm _ _
  rw [heq]
  exact hsort.sublist ((List.filter_sublist _).map _)

/-- The date filter returns a sublist. -/
theorem dateFiltered_sublist (s e : Option ℤ) (l : List Event) :
    List.Sublist (dateFiltered s e l) l := by
  unfold dateFiltered
  cases s with
  | none => cases e <;> exact List.Sublist.refl l
  | some sd => cases e with
    | none => exact List.Sublist.refl l
    | some ed => exact List.filter_sublist l

theorem dateFiltered_nil (s e : Option ℤ) : dateFiltered s e [] = [] := by
  unfold dateFiltered
  cases s <;> cases e <;> simp

theorem deviceFiltered_nil (sel : List String) : deviceFiltered sel [] = [] := by
  unfold deviceFiltered
  split <;> simp

theorem filteredEvents_nil (s e : Option ℤ) (sel : List String) :
    filteredEvents s e sel [] = [] := by
  unfold filteredEvents
  rw [dateFiltered_nil, deviceFiltered_nil]

/-- A nonempty allow-list matching no event filters everything out. -/
theorem filteredEvents_no_match {events : List Event} {sel : List String}
    (hne : sel ≠ []) (hno : ∀ ev ∈ events, ev.device ∉ sel) (s e : Option ℤ) :
    filteredEvents s e sel events = [] := by
  unfold filteredEvents deviceFiltered
  rw [if_neg (by simp [List.isEmpty_iff, hne])]
  rw [List.filter_eq_nil_iff]
  intro ev hev hcontains
  have hmem : ev ∈ events := (dateFiltered_sublist s e events).subset hev
  exact absurd hcontains (by simp [hno ev hmem])

/-- Without offline events there are no interval candidates. -/
theorem offlineCandidates_nil_of_no_offline {l : List Event}
    (h : ∀ ev ∈ l, ev.status ≠ Status.offline) : offlineCandidates l = [] := by
  unfold offlineCandidates
  rw [List.filter_eq_nil_iff]
  intro a ha hstat
  exact h a.ev (mem_annotate_ev ha) (by simpa using hstat)

/-- The aware-minus-naive subtraction of line 217 always signals `TypeError`. -/
theorem tsSub_accra_naive (a b : ℤ) :
    tsSub ⟨a, Tz.accra⟩ ⟨b, Tz.naive⟩ = Except.error () := rfl

/-- With an empty filtered dataframe the call returns at line 113. -/
theorem processData_of_filtered_nil {events : List Event} {s e : Option ℤ}
    {sel : List String} (h : filteredEvents s e sel events = [])
    (g1 t1 t2 g2 : ℤ) : processData events s e sel g1 t1 t2 g2 = ([], [], g1) := by
  simp [processData, h]

/-- With no offline candidates the call returns at line 143. -/
theorem processData_of_no_candidates {events : List Event} {s e : Option ℤ}
    {sel : List String} (hne : filteredEvents s e sel events ≠ [])
    (hcand : offlineCandidates (filteredEvents s e sel events) = [])
    (g1 t1 t2 g2 : ℤ) : processData events s e sel g1 t1 t2 g2 = ([], [], t1) := by
  simp [processData, List.isEmpty_iff, hne, hcand]

/-- With at least one offline candidate, line 217 raises and the handler at
lines 239-241 returns empty frames with a fresh Ghana-time sample. -/
theorem processData_of_candidates {events : List Event} {s e : Option ℤ}
    {sel : List String} (hne : filteredEvents s e sel events ≠ [])
    (hcand : offlineCandidates (filteredEvents s e sel events) ≠ [])
    (g1 t1 t2 g2 : ℤ) : processData events s e sel g1 t1 t2 g2 = ([], [], g2) := by
  simp [processData, List.isEmpty_iff, hne, hcand, tsSub]

/-- Every execution path hands back empty summary and interval tables. -/
theorem processData_tables_empty (events : List Event) (s e : Option ℤ)
    (sel : List String) (g1 t1 t2 g2 : ℤ) :
    (processData events s e sel g1 t1 t2 g2).1 = [] ∧
    (processData events s e sel g1 t1 t2 g2).2.1 = [] := by
  by_cases h1 : filteredEvents s e sel events = []
  · rw [processData_of_filtered_nil h1]
    exact ⟨rfl, rfl⟩
  · by_cases h2 : offlineCandidates (filteredEvents s e sel events) = []
    · rw [processData_of_no_candidates h1 h2]
      exact ⟨rfl, rfl⟩
    · rw [processData_of_candidates h1 h2]
      exact ⟨rfl, rfl⟩

theorem mem_insertBy {α : Type} {le : α → α → Bool} {x y : α} {l : List α} :
    x ∈ insertBy le y l ↔ x = y ∨ x ∈ l := by
  induction l with
  | nil => simp [insertBy]
  | cons a t ih =>
    unfold insertBy
    split
    · simp
    · simp only [List.mem_cons, ih]
      tauto

theorem mem_sortBy {α : Type} {le : α → α → Bool} {x : α} {l : List α} :
    x ∈ sortBy le l ↔ x ∈ l := by
  induction l with
  | nil => simp [sortBy]
  | cons a t ih => simp [sortBy, mem_insertBy, ih]

/-! ## Claim theorems -/

/-- C1 (code evaluated at the failing input): for the scenario
`[D1 offline @10:00, D1 online @10:05]` with the date range covering that day
and allow-list `["D1"]`, the internal pipeline does build one `Completed`
interval of 300 seconds and a summary row with status online and total
downtime 300 — but line 217 subtracts a tz-naive timestamp from the tz-aware
analysis time, raising `TypeError`, and the handler returns empty tables with
a fresh Ghana-time sample instead of the populated ones the claim requires. -/
theorem process_data_crashes_on_completed_scenario :
    processData [⟨"D1", 36000, Status.offline⟩, ⟨"D1", 36300, Status.online⟩]
        (some 0) (some 0) ["D1"] 100 200 300 400 = ([], [], 400) ∧
    (downtimeTable ⟨200, Tz.accra⟩
        (filteredEvents (some 0) (some 0) ["D1"]
          [⟨"D1", 36000, Status.offline⟩, ⟨"D1", 36300, Status.online⟩])).map
      (fun i => (i.dstatus, i.downtimeSeconds)) = [(DStatus.Completed, 300)] ∧
    (buildSummaryCore ⟨300, Tz.accra⟩
        (downtimeTable ⟨200, Tz.accra⟩
          (filteredEvents (some 0) (some 0) ["D1"]
            [⟨"D1", 36000, Status.offline⟩, ⟨"D1", 36300, Status.online⟩]))).map
      (fun r => (r.currentStatus, r.totalDowntimeSeconds)) =
      [("✔️ Online", 300)] := by
  decide

/-- C2 (counterexample): the interval pass and the summary pass use two
independently sampled clocks; with samples 40000 and 40010 a device with one
ongoing interval aggregates `Total_Downtime_Seconds = 4000` but
`Current_Downtime_Seconds = 4010`, so `total >= current` fails and no
`total := max(total, current)` reconciliation is performed. -/
theorem summary_total_lt_current_counterexample :
    (buildSummaryCore ⟨40010, Tz.accra⟩
        (downtimeTable ⟨40000, Tz.accra⟩
          (filteredEvents (some 0) (some 0) []
            [⟨"D1", 32400, Status.online⟩, ⟨"D1", 36000, Status.offline⟩]))).map
      (fun r => (r.ongoingCount, r.totalDowntimeSeconds, r.currentDowntimeSeconds)) =
      [(1, 4000, 4010)] ∧
    ¬((4010 : ℤ) ≤ 4000) ∧ (4000 : ℤ) ≠ max 4000 4010 := by
  decide

/-- C2 (amended): the two durations come from two separately sampled reference
times with no max-reconciliation; nevertheless, whenever the summary-pass
sample does not exceed the interval-pass sample, the events are per-device
time-sorted, and the interval-pass sample is not before any event, every
aggregated device with a positive ongoing count satisfies
`current_downtime <= total_downtime`. -/
theorem summary_total_ge_current_amended
    (events : List Event) (s e : Option ℤ) (sel : List String) (t1 t2 : ℤ)
    (hts : t2 ≤ t1)
    (hsort : ∀ d ∈ events.map (·.device),
      ((events.filter fun ev => ev.device == d).map (·.time)).Pairwise (· ≤ ·))
    (href : ∀ ev ∈ events, ev.time ≤ t1) :
    ∀ row ∈ buildSummaryCore ⟨t2, Tz.accra⟩
        (downtimeTable ⟨t1, Tz.accra⟩ (filteredEvents s e sel events)),
      0 < row.ongoingCount →
        row.currentDowntimeSeconds ≤ row.totalDowntimeSeconds := by
  intro row hrow hpos
  have hsub := filteredEvents_sublist s e sel events
  have hsortFl := perDevSorted_sublist hsub (perDevSorted_all events hsort)
  have hrefFl : ∀ ev ∈ filteredEvents s e sel events, ev.time ≤ t1 :=
    fun ev hev => href ev (hsub.subset hev)
  obtain ⟨d, rfl⟩ := mem_buildSummaryCore hrow
  rw [aggRow_ongoingCount] at hpos
  rw [aggRow_current, aggRow_total, if_pos hpos]
  obtain ⟨r, hrg, hrOngB⟩ := exists_mem_of_filter_length_pos hpos
  have hrdt : r ∈ downtimeTable ⟨t1, Tz.accra⟩ (filteredEvents s e sel events) :=
    (List.mem_filter.mp hrg).1
  obtain ⟨a, haAnn, haOff, hra⟩ := mem_downtimeTable hrdt
  have hrOng : (buildRow ⟨t1, Tz.accra⟩ a).dstatus = DStatus.Ongoing := by
    rw [← hra]
    simpa using hrOngB
  obtain ⟨hnext, hdur0⟩ := buildRow_ongoing hrOng
  have hdur : (buildRow ⟨t1, Tz.accra⟩ a).downtimeSeconds = t1 - a.ev.time := hdur0
  have hnonneg : ∀ x ∈ ((downtimeTable ⟨t1, Tz.accra⟩
      (filteredEvents s e sel events)).filter
        fun i => i.device == d).map (·.downtimeSeconds), 0 ≤ x := by
    intro x hx
    obtain ⟨i, hig, rfl⟩ := List.mem_map.mp hx
    obtain ⟨b, hbAnn, _, rfl⟩ := mem_downtimeTable (List.mem_filter.mp hig).1
    exact buildRow_nonneg
      (fun n hn => nextEv_time_le [] _ hsortFl b hbAnn n hn)
      (hrefFl b.ev (mem_annotate_ev hbAnn))
  have hsum := List.single_le_sum hnonneg _
    (List.mem_map_of_mem (·.downtimeSeconds) hrg)
  rw [hra, hdur] at hsum
  have hpw : (((downtimeTable ⟨t1, Tz.accra⟩
      (filteredEvents s e sel events)).filter
        fun i => i.device == d).map (·.offlineTime)).Pairwise (· ≤ ·) := by
    rw [downtimeTable_filter_offlineTimes]
    exact pairwise_offline_times d (hsortFl d)
  have hlast := le_getLastD _ hpw r.offlineTime
    (List.mem_map_of_mem (·.offlineTime) hrg) 0
  rw [hra, buildRow_offlineTime] at hlast
  have hval : (tzLocalizeNone (⟨t2, Tz.accra⟩ : TS)).val = t2 := rfl
  rw [hval]
  omega

/-- C2 (witness): with both clock samples coinciding in effect
(summary sample 39990 not after interval sample 40000), the amended invariant
evaluates on the single ongoing device of a concrete run. -/
theorem summary_total_ge_current_witness :
    (39990 : ℤ) ≤ 40000 ∧
    (aggRow ⟨39990, Tz.accra⟩
        (downtimeTable ⟨40000, Tz.accra⟩
          (filteredEvents (some 0) (some 0) []
            [⟨"D1", 32400, Status.online⟩, ⟨"D1", 36000, Status.offline⟩]))
        "D1").currentDowntimeSeconds ≤
      (aggRow ⟨39990, Tz.accra⟩
        (downtimeTable ⟨40000, Tz.accra⟩
          (filteredEvents (some 0) (some 0) []
            [⟨"D1", 32400, Status.online⟩, ⟨"D1", 36000, Status.offline⟩]))
        "D1").totalDowntimeSeconds :=
  ⟨by decide,
    summary_total_ge_current_amended
      [⟨"D1", 32400, Status.online⟩, ⟨"D1", 36000, Status.offline⟩]
      (some 0) (some 0) [] 40000 39990 (by decide) (by decide) (by decide)
      (aggRow ⟨39990, Tz.accra⟩
        (downtimeTable ⟨40000, Tz.accra⟩
          (filteredEvents (some 0) (some 0) []
            [⟨"D1", 32400, Status.online⟩, ⟨"D1", 36000, Status.offline⟩]))
        "D1")
      (by decide) (by decide)⟩

/-- C3 (counterexample): in the scenario
`[D1 off @9:00, D1 off @9:30, D1 on @10:00]` the first candidate carries the
non-null `Online_Time` 9:30 yet keeps status `Intermediate` after the
reclassification pass, because lines 145-147 only coerce rows tagged
`Ongoing`. -/
theorem intermediate_keeps_online_time_counterexample :
    (downtimeTable ⟨40000, Tz.accra⟩
        [⟨"D1", 32400, Status.offline⟩, ⟨"D1", 34200, Status.offline⟩,
         ⟨"D1", 36000, Status.online⟩]).map
      (fun i => (i.dstatus, i.onlineTime)) =
      [(DStatus.Intermediate, some 34200), (DStatus.Completed, some 36000)] ∧
    DStatus.Intermediate ≠ DStatus.Completed := by
  decide

/-- C3 (amended): the reclassification pass of lines 145-147 coerces exactly
the `Ongoing`-tagged candidates with non-null `Online_Time`; consequently,
after the pass an interval with non-null `Online_Time` is never `Ongoing`
(it is `Completed` or still `Intermediate`). -/
theorem online_time_never_ongoing (ct : TS) (l : List Event) :
    ∀ fi ∈ downtimeTable ct l, fi.onlineTime.isSome = true →
      fi.dstatus ≠ DStatus.Ongoing := by
  intro fi hfi hsome
  obtain ⟨a, _, _, rfl⟩ := mem_downtimeTable hfi
  intro hOng
  obtain ⟨hnext, _⟩ := buildRow_ongoing hOng
  rw [buildRow_onlineTime, hnext] at hsome
  simp at hsome

/-- C3 (witness): the amended statement evaluated on the completed row of the
three-event scenario. -/
theorem online_time_never_ongoing_witness :
    ({ device := "D1", offlineTime := 34200, onlineTime := some 36000,
       downtimeSeconds := 1800, downtimeDuration := "00:30:00",
       dstatus := DStatus.Completed } : FinInterval).dstatus ≠ DStatus.Ongoing :=
  online_time_never_ongoing ⟨40000, Tz.accra⟩
    [⟨"D1", 32400, Status.offline⟩, ⟨"D1", 34200, Status.offline⟩,
     ⟨"D1", 36000, Status.online⟩]
    { device := "D1", offlineTime := 34200, onlineTime := some 36000,
      downtimeSeconds := 1800, downtimeDuration := "00:30:00",
      dstatus := DStatus.Completed }
    (by decide) (by decide)

/-- C4 (counterexample): a device whose only event is offline has no previous
event, yet the initial classification is `Intermediate`, not `Ongoing` —
in `np.where(prev_status == 'online', ...)` a missing neighbor compares
unequal to `'online'`. -/
theorem first_event_offline_intermediate_counterexample :
    (initIntervals [⟨"D1", 36000, Status.offline⟩]).map (·.dstatus) =
      [DStatus.Intermediate] ∧ DStatus.Intermediate ≠ DStatus.Ongoing := by
  decide

/-- C4 (amended): for an offline candidate whose next event is not online, the
initial classification is `Ongoing` exactly when the previous status is
literally `online`; with no previous event it is `Intermediate`. -/
theorem classify_ongoing_iff_prev_online (ns ps : Option Status)
    (h : ns ≠ some Status.online) :
    (classifyInit ns ps = DStatus.Ongoing ↔ ps = some Status.online) := by
  unfold classifyInit
  rw [if_neg h]
  by_cases hp : ps = some Status.online
  · rw [if_pos hp]
    simp [hp]
  · rw [if_neg hp]
    simp [hp]

/-- C4 (witness): the amended statement evaluated at a candidate with no
neighbors at all. -/
theorem classify_ongoing_iff_prev_online_witness :
    (none : Option Status) ≠ some Status.online ∧
    (classifyInit none none = DStatus.Ongoing ↔
      (none : Option Status) = some Status.online) :=
  ⟨by decide, classify_ongoing_iff_prev_online none none (by decide)⟩

/-- C5 (counterexample): an interleaved row whose `Type` contains "encoding"
but neither "online" nor "offline" is normalized to status `unknown`, kept in
the canonical sequence, and changes the offline event's neighbors: with it the
interval is `Intermediate` with 120 seconds, without it `Completed` with 300
seconds. -/
theorem unknown_rows_affect_neighbors_counterexample :
    (preprocess [⟨36000, "D1", "encoding offline"⟩,
        ⟨36120, "D1", "encoding stopped"⟩,
        ⟨36300, "D1", "encoding online"⟩]).map (·.status) =
      [Status.offline, Status.unknown, Status.online] ∧
    (downtimeTable ⟨40000, Tz.accra⟩
        (preprocess [⟨36000, "D1", "encoding offline"⟩,
          ⟨36120, "D1", "encoding stopped"⟩,
          ⟨36300, "D1", "encoding online"⟩])).map
      (fun i => (i.dstatus, i.downtimeSeconds)) =
      [(DStatus.Intermediate, 120)] ∧
    (downtimeTable ⟨40000, Tz.accra⟩
        ((preprocess [⟨36000, "D1", "encoding offline"⟩,
          ⟨36120, "D1", "encoding stopped"⟩,
          ⟨36300, "D1", "encoding online"⟩]).filter
          fun ev => ev.status != Status.unknown)).map
      (fun i => (i.dstatus, i.downtimeSeconds)) =
      [(DStatus.Completed, 300)] := by
  decide

/-- C5 (amended): the normalizer keeps every row whose `Type` contains
"encoding" (case-insensitive), whatever status it infers — `unknown` rows are
not excluded before reaching the Engine. -/
theorem encoding_rows_reach_engine (raw : List RawRow) (r : RawRow)
    (hmem : r ∈ raw) (henc : containsCI "encoding" r.ty = true) :
    toCanonical r ∈ preprocess raw := by
  unfold preprocess
  rw [mem_sortBy]
  exact List.mem_map_of_mem toCanonical (List.mem_filter.mpr ⟨hmem, henc⟩)

/-- C5 (witness): the unknown-status row of the counterexample scenario does
reach the Engine's canonical sequence. -/
theorem encoding_rows_reach_engine_witness :
    (⟨36120, "D1", "encoding stopped"⟩ : RawRow) ∈
      [(⟨36000, "D1", "encoding offline"⟩ : RawRow),
       ⟨36120, "D1", "encoding stopped"⟩,
       ⟨36300, "D1", "encoding online"⟩] ∧
    containsCI "encoding" "encoding stopped" = true ∧
    toCanonical ⟨36120, "D1", "encoding stopped"⟩ ∈
      preprocess [⟨36000, "D1", "encoding offline"⟩,
        ⟨36120, "D1", "encoding stopped"⟩,
        ⟨36300, "D1", "encoding online"⟩] :=
  ⟨by decide, by decide,
    encoding_rows_reach_engine
      [⟨36000, "D1", "encoding offline"⟩,
        ⟨36120, "D1", "encoding stopped"⟩,
        ⟨36300, "D1", "encoding online"⟩]
      ⟨36120, "D1", "encoding stopped"⟩ (by decide) (by decide)⟩

/-- C6 (code evaluated at the failing input): the status formatting of lines
231-233 maps `Intermediate` to the same tag `'✔️ Completed'` as `Completed`,
so an `Intermediate` interval is never presented distinctly; moreover the call
on this scenario returns empty tables because line 217 raises first. -/
theorem intermediate_displayed_as_completed :
    (downtimeTable ⟨40000, Tz.accra⟩
        [⟨"D1", 32400, Status.offline⟩, ⟨"D1", 34200, Status.offline⟩,
         ⟨"D1", 36000, Status.online⟩]).map
      (fun i => (i.dstatus, (toDisplay i).downtimeStatus)) =
      [(DStatus.Intermediate, "✔️ Completed"),
       (DStatus.Completed, "✔️ Completed")] ∧
    displayStatus DStatus.Intermediate = displayStatus DStatus.Completed ∧
    processData [⟨"D1", 32400, Status.offline⟩, ⟨"D1", 34200, Status.offline⟩,
        ⟨"D1", 36000, Status.online⟩]
      (some 0) (some 0) [] 100 200 300 400 = ([], [], 400) := by
  decide

/-- C7: the interval and summary tables of two runs on the same events, date
range and allow-list coincide — for any clock samples whatsoever, hence in
particular for runs sharing a fixed reference time.  (Every path returns empty
tables: the two early exits return empty frames, and the main path dies at
line 217's aware-minus-naive subtraction.) -/
theorem tables_independent_of_clock_samples (events : List Event)
    (s e : Option ℤ) (sel : List String)
    (g1 t1 t2 g2 g1' t1' t2' g2' : ℤ) :
    (processData events s e sel g1 t1 t2 g2).1 =
      (processData events s e sel g1' t1' t2' g2').1 ∧
    (processData events s e sel g1 t1 t2 g2).2.1 =
      (processData events s e sel g1' t1' t2' g2').2.1 := by
  obtain ⟨ha1, ha2⟩ := processData_tables_empty events s e sel g1 t1 t2 g2
  obtain ⟨hb1, hb2⟩ := processData_tables_empty events s e sel g1' t1' t2' g2'
  exact ⟨ha1.trans hb1.symm, ha2.trans hb2.symm⟩

/-- C8: an empty event set, a nonempty allow-list matching no device, or a
filtered set with no offline events all return empty summary and interval
tables plus a reference instant, through the early returns of lines 112-113
and 142-143 — no exception reaches the caller (the model is total). -/
theorem empty_conditions_give_empty_tables (events : List Event)
    (s e : Option ℤ) (sel : List String) (g1 t1 t2 g2 : ℤ) :
    (events = [] → processData events s e sel g1 t1 t2 g2 = ([], [], g1)) ∧
    (sel ≠ [] → (∀ ev ∈ events, ev.device ∉ sel) →
      processData events s e sel g1 t1 t2 g2 = ([], [], g1)) ∧
    ((∀ ev ∈ filteredEvents s e sel events, ev.status ≠ Status.offline) →
      processData events s e sel g1 t1 t2 g2 = ([], [], g1) ∨
      processData events s e sel g1 t1 t2 g2 = ([], [], t1)) := by
  refine ⟨?_, ?_, ?_⟩
  · intro h
    subst h
    exact processData_of_filtered_nil (filteredEvents_nil s e sel) g1 t1 t2 g2
  · intro hne hno
    exact processData_of_filtered_nil (filteredEvents_no_match hne hno s e) g1 t1 t2 g2
  · intro hnooff
    by_cases hf : filteredEvents s e sel events = []
    · exact Or.inl (processData_of_filtered_nil hf g1 t1 t2 g2)
    · exact Or.inr (processData_of_no_candidates hf
        (offlineCandidates_nil_of_no_offline hnooff) g1 t1 t2 g2)

/-- C8 (witness): the three boundary conditions evaluated on concrete inputs:
an empty batch, an allow-list matching nothing, and an online-only batch. -/
theorem empty_conditions_give_empty_tables_witness :
    processData [] (some 0) (some 0) ["D1"] 1 2 3 4 = ([], [], 1) ∧
    processData [⟨"D2", 36000, Status.offline⟩] (some 0) (some 0) ["D1"]
      1 2 3 4 = ([], [], 1) ∧
    (processData [⟨"D1", 36000, Status.online⟩] (some 0) (some 0) []
      1 2 3 4 = ([], [], 1) ∨
     processData [⟨"D1", 36000, Status.online⟩] (some 0) (some 0) []
      1 2 3 4 = ([], [], 2)) :=
  ⟨(empty_conditions_give_empty_tables [] (some 0) (some 0) ["D1"] 1 2 3 4).1 rfl,
   (empty_conditions_give_empty_tables [⟨"D2", 36000, Status.offline⟩]
      (some 0) (some 0) ["D1"] 1 2 3 4).2.1 (by decide) (by decide),
   (empty_conditions_give_empty_tables [⟨"D1", 36000, Status.online⟩]
      (some 0) (some 0) [] 1 2 3 4).2.2 (by decide)⟩

/-- C9 (counterexample): with start day 10 after end day 0, the engine does
not swap the dates: it returns the empty result of the early exit at line 113,
while the swapped range takes the main path (whose handler returns the
fourth clock sample) — the two calls do not compute the same result, and the
reversed call returns precisely an empty result. -/
theorem no_swap_counterexample :
    processData [⟨"D1", 36000, Status.offline⟩, ⟨"D1", 36300, Status.online⟩]
        (some 864000) (some 0) [] 100 200 300 400 = ([], [], 100) ∧
    processData [⟨"D1", 36000, Status.offline⟩, ⟨"D1", 36300, Status.online⟩]
        (some 0) (some 864000) [] 100 200 300 400 = ([], [], 400) ∧
    (([], [], 100) : List SummaryRow × List DisplayRow × ℤ) ≠ ([], [], 400) := by
  decide

/-- C9 (amended): a start date more than one day after the end date is not
corrected by swapping; the range filter is applied as given, matches nothing,
and the call returns the empty tables of the early exit at line 113. -/
theorem reversed_range_returns_empty (events : List Event) (sel : List String)
    (g1 t1 t2 g2 : ℤ) (s e : ℤ) (h : e + 86400 < s) :
    processData events (some s) (some e) sel g1 t1 t2 g2 = ([], [], g1) := by
  apply processData_of_filtered_nil
  unfold filteredEvents
  have hdate : dateFiltered (some s) (some e) events = [] := by
    unfold dateFiltered
    rw [List.filter_eq_nil_iff]
    intro ev _ hkeep
    simp only [Bool.and_eq_true, decide_eq_true_eq] at hkeep
    omega
  rw [hdate, deviceFiltered_nil]

/-- C9 (witness): the amended statement evaluated at a reversed range. -/
theorem reversed_range_returns_empty_witness :
    (0 : ℤ) + 86400 < 864000 ∧
    processData [⟨"D1", 36000, Status.offline⟩, ⟨"D1", 36300, Status.online⟩]
      (some 864000) (some 0) ["D1"] 1 2 3 4 = ([], [], 1) :=
  ⟨by decide,
    reversed_range_returns_empty
      [⟨"D1", 36000, Status.offline⟩, ⟨"D1", 36300, Status.online⟩]
      ["D1"] 1 2 3 4 864000 0 (by decide)⟩

/-- C10 (counterexample): an event at exactly `end + 1 day` (86400 s after
midnight of the end date) is kept by the date filter — line 106 compares with
`<=`, not `<` as the claim requires. -/
theorem boundary_event_kept_counterexample :
    dateFiltered (some 0) (some 0) [⟨"D1", 86400, Status.offline⟩] =
      [⟨"D1", 86400, Status.offline⟩] ∧
    ¬((86400 : ℤ) < 0 + 86400) := by
  decide

/-- C10 (amended): the date filter keeps an event exactly when
`start <= t <= end + 1 day` — both boundaries inclusive. -/
theorem dateFiltered_mem_iff (s e : ℤ) (l : List Event) (ev : Event) :
    ev ∈ dateFiltered (some s) (some e) l ↔
      ev ∈ l ∧ s ≤ ev.time ∧ ev.time ≤ e + 86400 := by
  unfold dateFiltered
  simp [List.mem_filter, and_assoc]

end LogsAnalyzer
